import Mathlib

/-!
Shallow embedding of `src/distributed_tracer.py` (class `DistributedTracer`).

Timestamps are rationals (seconds on a single logical clock: the Python code
mixes `time.time()` and SQL `NOW()`, which we model as one clock passed to each
operation as `now`).  Durations are rationals (milliseconds, the table column is
`DECIMAL(10,2)`).  Nullable SQL columns become `Option`.  The `traces` and
`spans` tables are lists of records; the in-memory `active_traces` dict is an
association list.  The Python functions that can raise are embedded as
`Except`-returning functions whose error constructors name the exception the
interpreter would raise at the corresponding line.
-/

namespace DistributedTracer

/-- Row of the `traces` table.  `start_trace` inserts with `end_time`,
`duration_ms` (and `metadata`, which nothing ever writes or reads and which we
therefore omit) left NULL. -/
structure TraceRec where
  trace_id : String
  service_name : String
  operation_name : String
  start_time : Rat
  end_time : Option Rat
  duration_ms : Option Rat
  status : String
deriving DecidableEq

/-- Row of the `spans` table.  `create_span` inserts with `end_time`,
`duration_ms`, `db_query` and `rows_affected` left NULL. -/
structure SpanRec where
  span_id : String
  trace_id : String
  parent_span_id : Option String
  service_name : String
  operation_name : String
  start_time : Rat
  end_time : Option Rat
  duration_ms : Option Rat
  db_query : Option String
  rows_affected : Option Int
  status : String
deriving DecidableEq

/-- Value stored in the in-memory `active_traces` dict by `start_trace`
(Python keys: `'service'`, `'operation'`, `'start_time'`). -/
structure ActiveInfo where
  service : String
  operation : String
  start_time : Rat
deriving DecidableEq

/-- State of one `DistributedTracer` plus its database: the two tables and the
in-memory open-trace table `self.active_traces`. -/
structure TracerState where
  traces : List TraceRec
  spans : List SpanRec
  active_traces : List (String × ActiveInfo)
deriving DecidableEq

/-- Python `trace_id in self.active_traces` / `self.active_traces[trace_id]`. -/
def lookupActive (l : List (String × ActiveInfo)) (tid : String) : Option ActiveInfo :=
  (l.find? (fun p => p.1 == tid)).map Prod.snd

/-- `SELECT ... FROM traces WHERE trace_id = %s` (primary-key lookup). -/
def findTrace (s : TracerState) (tid : String) : Option TraceRec :=
  s.traces.find? (fun tr => tr.trace_id == tid)

/-- Primary-key lookup in the `spans` table. -/
def findSpan (s : TracerState) (sid : String) : Option SpanRec :=
  s.spans.find? (fun sp => sp.span_id == sid)

/-- `start_trace(service_name, operation_name)`: INSERT a trace row with status
`'in_progress'`, `start_time = NOW()`, NULL `end_time`/`duration_ms`, and record
the fresh id in `active_traces`.  The fresh `uuid4` is a parameter. -/
def start_trace (s : TracerState) (trace_id service_name operation_name : String)
    (now : Rat) : TracerState :=
  { s with
    traces := s.traces ++ [{ trace_id := trace_id, service_name := service_name,
                             operation_name := operation_name, start_time := now,
                             end_time := none, duration_ms := none,
                             status := "in_progress" }]
    active_traces := s.active_traces ++
      [(trace_id, { service := service_name, operation := operation_name,
                    start_time := now })] }

/-- Result signalled by `end_trace`: `notFound` models the
`logger.warning(f"Trace ... not found"); return` path. -/
inductive EndTraceResult
  | notFound
  | ended
deriving DecidableEq

/-- `end_trace(trace_id, status)`: if the id is not in `active_traces`, log a
warning and return (state unchanged).  Otherwise set
`duration = (time.time() - start) * 1000`, UPDATE the trace row
(`end_time = NOW()`, `duration_ms`, `status`) and delete the id from
`active_traces`. -/
def end_trace (s : TracerState) (trace_id status : String) (now : Rat) :
    TracerState × EndTraceResult :=
  match lookupActive s.active_traces trace_id with
  | none => (s, .notFound)
  | some trace_info =>
    let duration : Rat := (now - trace_info.start_time) * 1000
    ({ s with
       traces := s.traces.map (fun tr =>
         if tr.trace_id == trace_id then
           { tr with end_time := some now, duration_ms := some duration,
                     status := status }
         else tr)
       active_traces := s.active_traces.filter (fun p => p.1 != trace_id) },
     .ended)

/-- `create_span(trace_id, service_name, operation_name, parent_span_id)`:
INSERT a span row with status `'in_progress'`, `start_time = NOW()` and the
given linkage; no validation of `trace_id` or `parent_span_id`.  The fresh
`uuid4` is a parameter. -/
def create_span (s : TracerState) (span_id trace_id service_name operation_name : String)
    (parent_span_id : Option String) (now : Rat) : TracerState :=
  { s with
    spans := s.spans ++ [{ span_id := span_id, trace_id := trace_id,
                           parent_span_id := parent_span_id,
                           service_name := service_name,
                           operation_name := operation_name, start_time := now,
                           end_time := none, duration_ms := none,
                           db_query := none, rows_affected := none,
                           status := "in_progress" }] }

/-- `end_span(span_id, query, rows_affected, status)`: UPDATE the matching span
rows with `end_time = NOW()`,
`duration_ms = EXTRACT(EPOCH FROM (NOW() - start_time)) * 1000` (recomputed from
the stored start), the descriptor, the affected count and the status.  A
non-matching id updates zero rows. -/
def end_span (s : TracerState) (span_id : String) (query : Option String)
    (rows_affected : Int) (status : String) (now : Rat) : TracerState :=
  { s with
    spans := s.spans.map (fun sp =>
      if sp.span_id == span_id then
        { sp with end_time := some now,
                  duration_ms := some ((now - sp.start_time) * 1000),
                  db_query := query, rows_affected := some rows_affected,
                  status := status }
      else sp) }

/-- Spans of one trace, in table order:
`SELECT ... FROM spans WHERE trace_id = %s` before the ORDER BY. -/
def tracedSpans (s : TracerState) (tid : String) : List SpanRec :=
  s.spans.filter (fun sp => sp.trace_id == tid)

/-- Ordering used by `ORDER BY start_time` on the span query. -/
def startLe (a b : SpanRec) : Prop :=
  a.start_time ≤ b.start_time

instance : DecidableRel startLe :=
  fun a b => inferInstanceAs (Decidable (a.start_time ≤ b.start_time))

instance : IsTotal SpanRec startLe :=
  ⟨fun a b => le_total a.start_time b.start_time⟩

instance : IsTrans SpanRec startLe :=
  ⟨fun _ _ _ h h2 => le_trans h h2⟩

/-- Span list delivered to `analyze_trace`:
`SELECT ... WHERE trace_id = %s ORDER BY start_time`.  The SQL leaves the order
of equal start times unspecified; a stable sort of table order stands in for
one such order. -/
def loadSpans (s : TracerState) (tid : String) : List SpanRec :=
  List.insertionSort startLe (tracedSpans s tid)

/-- Python truthiness of the `db_query` value bound to `query` in the span
loop: `if query:` is false exactly on `None` and the empty string. -/
def isTruthy : Option String → Bool
  | none => false
  | some q => q != ""

/-- Duration used in the analyzer arithmetic once a span is known to have a
non-NULL `duration_ms` (the loop has already raised otherwise). -/
def spanDur (sp : SpanRec) : Rat :=
  sp.duration_ms.getD 0

/-- Ways `analyze_trace` stops without producing a full report, each naming the
Python line that stops it. -/
inductive AnalyzeErr
  | notFound
  | typeErrorNullTraceDuration
  | typeErrorNullSpanDuration
  | valueErrorEmptyMax
deriving DecidableEq

/-- Data `analyze_trace` prints on the success path: the trace summary line,
the per-span breakdown size, the performance metrics and the slowest span. -/
structure TraceReport where
  service : String
  operation : String
  duration : Rat
  status : String
  span_count : Nat
  total_db_time : Rat
  db_percentage : Rat
  non_db_time : Rat
  bottleneck : SpanRec
deriving DecidableEq

/-- Accumulation of `total_db_time` by the span loop of `analyze_trace`.  Each
iteration formats `{dur:.2f}`, so a NULL span duration raises `TypeError`
before anything is added; a span adds its duration exactly when `if query:` is
true. -/
def sumDbTime : List SpanRec → Except AnalyzeErr Rat
  | [] => .ok 0
  | sp :: rest =>
    match sp.duration_ms with
    | none => .error .typeErrorNullSpanDuration
    | some d =>
      match sumDbTime rest with
      | .error e => .error e
      | .ok t => .ok ((if isTruthy sp.db_query then d else 0) + t)

/-- Scan of Python `max(spans, key=lambda x: x[4])` after the first element:
the current maximum is replaced only on a strictly larger key, so the first
occurrence of the maximal duration wins. -/
def maxByDur (m : SpanRec) : List SpanRec → SpanRec
  | [] => m
  | y :: ys => maxByDur (if spanDur m < spanDur y then y else m) ys

/-- Python `max(spans, key=lambda x: x[4])`; raises `ValueError` on `[]`,
modelled as `none`. -/
def pyMax : List SpanRec → Option SpanRec
  | [] => none
  | x :: xs => some (maxByDur x xs)

/-- Body of `analyze_trace` after the two queries.  In source order: printing
`{duration:.2f}` raises `TypeError` if the trace's `duration_ms` is NULL; the
span loop accumulates `total_db_time` (raising on a NULL span duration);
`db_percentage = total_db_time / duration * 100 if duration > 0 else 0`;
`max(spans, ...)` raises `ValueError` on an empty span list. -/
def analyzeOn (tr : TraceRec) (spans : List SpanRec) : Except AnalyzeErr TraceReport :=
  match tr.duration_ms with
  | none => .error .typeErrorNullTraceDuration
  | some duration =>
    match sumDbTime spans with
    | .error e => .error e
    | .ok total_db_time =>
      match pyMax spans with
      | none => .error .valueErrorEmptyMax
      | some slowest =>
        .ok { service := tr.service_name, operation := tr.operation_name,
              duration := duration, status := tr.status,
              span_count := spans.length, total_db_time := total_db_time,
              db_percentage :=
                if duration > 0 then total_db_time / duration * 100 else 0,
              non_db_time := duration - total_db_time, bottleneck := slowest }

/-- `analyze_trace(trace_id)`: load the trace row (absent prints
`"Trace not found"` and returns), load the spans ordered by start time, then
run the analysis body. -/
def analyze_trace (s : TracerState) (tid : String) : Except AnalyzeErr TraceReport :=
  match findTrace s tid with
  | none => .error .notFound
  | some tr => analyzeOn tr (loadSpans s tid)

/-- Row of the `GROUP BY service_name` query of `get_service_performance`.
`COUNT(*)` counts every row of the group; `AVG`/`MAX`/`MIN` skip NULL
`duration_ms` values and are NULL when every value is NULL. -/
structure ServiceStats where
  service_name : String
  span_count : Nat
  avg_duration : Option Rat
  max_duration : Option Rat
  min_duration : Option Rat
deriving DecidableEq

/-- Aggregate row the query yields for one service name. -/
def statsFor (spans : List SpanRec) (svc : String) : ServiceStats :=
  let group := spans.filter (fun sp => sp.service_name == svc)
  let ds := group.filterMap (fun sp => sp.duration_ms)
  { service_name := svc
    span_count := group.length
    avg_duration := if ds.isEmpty then none else some (ds.sum / (ds.length : Rat))
    max_duration := ds.max?
    min_duration := ds.min? }

/-- Unordered result of the `GROUP BY service_name` aggregation: one row per
distinct service name occurring in the span table. -/
def serviceGroups (spans : List SpanRec) : List ServiceStats :=
  ((spans.map (fun sp => sp.service_name)).dedup).map (statsFor spans)

/-- Row order admitted by `ORDER BY avg_duration DESC`: `a` may precede `b`.
PostgreSQL sorts `DESC` with NULLs first; rows with equal keys may appear in
any order, as the query has no secondary sort key. -/
def avgAfter (a b : ServiceStats) : Prop :=
  match a.avg_duration, b.avg_duration with
  | none, _ => True
  | some _, none => False
  | some x, some y => y ≤ x

/-- Characterisation of the row sequences the `get_service_performance` query
may return: the group rows, in some order consistent with
`ORDER BY avg_duration DESC`.  The query promises nothing more, so any such
sequence is a possible output. -/
def servicePerformanceOutput (spans : List SpanRec) (rows : List ServiceStats) : Prop :=
  rows.Perm (serviceGroups spans) ∧ rows.Pairwise avgAfter

/-- Adjacent-row order asserted by the specification for `aggregate()`:
strictly larger average first, ties broken by ascending service name.  Stated
from the spec in order to compare it with what the query guarantees. -/
def claimRowOrder (a b : ServiceStats) : Prop :=
  (avgAfter a b ∧ ¬ avgAfter b a) ∨
    (a.avg_duration = b.avg_duration ∧ a.service_name < b.service_name)

/-- State with no traces, spans or open entries. -/
def emptyState : TracerState :=
  { traces := [], spans := [], active_traces := [] }

/-- Trace row exactly as `start_trace` inserts it at time 0. -/
def egTrace : TraceRec :=
  { trace_id := "t1", service_name := "api-gateway", operation_name := "create_order",
    start_time := 0, end_time := none, duration_ms := none, status := "in_progress" }

/-- Matching `active_traces` entry for `egTrace`. -/
def egInfo : ActiveInfo :=
  { service := "api-gateway", operation := "create_order", start_time := 0 }

/-- State right after `start_trace`: the trace is `in_progress`, `duration_ms`
is NULL, no spans exist yet. -/
def openState : TracerState :=
  { traces := [egTrace], spans := [], active_traces := [("t1", egInfo)] }

/-- Second trace row as `start_trace` inserts it at time 1. -/
def egTrace2 : TraceRec :=
  { trace_id := "t2", service_name := "svc2", operation_name := "op2",
    start_time := 1, end_time := none, duration_ms := none, status := "in_progress" }

/-- Two open traces: `t1` started at 0 and `t2` started at 1. -/
def twoState : TracerState :=
  start_trace openState "t2" "svc2" "op2" 1

/-- Trace row after a successful `end_trace` at 5 seconds (5000 ms). -/
def doneTrace : TraceRec :=
  { trace_id := "t1", service_name := "api-gateway", operation_name := "create_order",
    start_time := 0, end_time := some 5, duration_ms := some 5000, status := "success" }

/-- Ended trace that owns zero spans. -/
def closedEmptyState : TracerState :=
  { traces := [doneTrace], spans := [], active_traces := [] }

/-- Completed DB-attributed span, 50 ms, starting at second 1. -/
def egSpanA : SpanRec :=
  { span_id := "spA", trace_id := "t1", parent_span_id := none,
    service_name := "user-service", operation_name := "validate_user",
    start_time := 1, end_time := some 2, duration_ms := some 50,
    db_query := some "SELECT * FROM users WHERE user_id = 123",
    rows_affected := some 1, status := "success" }

/-- Completed DB-attributed span, 80 ms, starting at second 2. -/
def egSpanB : SpanRec :=
  { span_id := "spB", trace_id := "t1", parent_span_id := none,
    service_name := "inventory-service", operation_name := "check_stock",
    start_time := 2, end_time := some 3, duration_ms := some 80,
    db_query := some "SELECT stock FROM products WHERE product_id = 456",
    rows_affected := some 1, status := "success" }

/-- Ended trace with two completed spans. -/
def tracedState : TracerState :=
  { traces := [doneTrace], spans := [egSpanA, egSpanB], active_traces := [] }

/-- Report `analyze_trace` produces on `tracedState` (fields written as the
analyzer computes them). -/
def egReport : TraceReport :=
  { service := "api-gateway", operation := "create_order", duration := 5000,
    status := "success", span_count := 2, total_db_time := 50 + (80 + 0),
    db_percentage := if (5000 : Rat) > 0 then (50 + (80 + 0)) / 5000 * 100 else 0,
    non_db_time := 5000 - (50 + (80 + 0)), bottleneck := egSpanB }

/-- Span of service `svc-a` with duration 10 ms. -/
def tieSpanA : SpanRec :=
  { span_id := "sa", trace_id := "t1", parent_span_id := none,
    service_name := "svc-a", operation_name := "op", start_time := 0,
    end_time := some 1, duration_ms := some 10, db_query := none,
    rows_affected := some 0, status := "success" }

/-- Span of service `svc-b` with the same duration 10 ms, so both services
have average duration 10. -/
def tieSpanB : SpanRec :=
  { span_id := "sb", trace_id := "t1", parent_span_id := none,
    service_name := "svc-b", operation_name := "op", start_time := 1,
    end_time := some 2, duration_ms := some 10, db_query := none,
    rows_affected := some 0, status := "success" }

/-- Span population with two services tied on average duration. -/
def tieSpans : List SpanRec :=
  [tieSpanA, tieSpanB]

/-- Aggregate rows for `tieSpans` listed with the tie in descending service
name order. -/
def tieRowsDesc : List ServiceStats :=
  [statsFor tieSpans "svc-b", statsFor tieSpans "svc-a"]

/-! Helper lemmas about the Store embedding. -/

/-- A `find?` over rows rewritten by a key-preserving UPDATE locates the
updated image of the row `find?` located before. -/
theorem find?_map_ite {α : Type} (p : α → Bool) (f : α → α)
    (hf : ∀ x, p (f x) = p x) :
    ∀ l : List α, (l.map (fun x => if p x then f x else x)).find? p = (l.find? p).map f := by
  intro l
  induction l with
  | nil => rfl
  | cons a l ih =>
    by_cases h : p a
    · simp [List.find?_cons, h, hf]
    · simp [List.find?_cons, h, ih]

/-- Deleting a key from the open-trace table makes its lookup fail. -/
theorem lookupActive_filter (l : List (String × ActiveInfo)) (tid : String) :
    lookupActive (l.filter (fun p => p.1 != tid)) tid = none := by
  unfold lookupActive
  rw [List.find?_eq_none.mpr]
  · rfl
  · intro x hx
    have := (List.mem_filter.mp hx).2
    simpa using this

/-- After any `end_trace` call the id is no longer in the open-trace table:
either it was absent already, or it has just been deleted. -/
theorem lookupActive_end_trace (s : TracerState) (tid st : String) (now : Rat) :
    lookupActive ((end_trace s tid st now).1).active_traces tid = none := by
  unfold end_trace
  cases h : lookupActive s.active_traces tid with
  | none => exact h
  | some info => exact lookupActive_filter s.active_traces tid

/-- `end_trace` on an id absent from the open-trace table only logs. -/
theorem end_trace_of_lookup_none {s : TracerState} {tid : String} (st : String) (now : Rat)
    (h : lookupActive s.active_traces tid = none) :
    end_trace s tid st now = (s, .notFound) := by
  unfold end_trace
  rw [h]

/-- A second `end_trace` on the same id is always a logged no-op. -/
theorem end_trace_twice (s : TracerState) (tid st1 st2 : String) (n1 n2 : Rat) :
    end_trace (end_trace s tid st1 n1).1 tid st2 n2 =
      ((end_trace s tid st1 n1).1, .notFound) :=
  end_trace_of_lookup_none st2 n2 (lookupActive_end_trace s tid st1 n1)

/-- Effect of a successful `end_trace` on the trace row `find?` locates. -/
theorem findTrace_end_trace {s : TracerState} {tid : String} {trace_info : ActiveInfo}
    (st : String) (now : Rat)
    (h : lookupActive s.active_traces tid = some trace_info) :
    findTrace ((end_trace s tid st now).1) tid =
      (findTrace s tid).map (fun tr =>
        { tr with end_time := some now,
                  duration_ms := some ((now - trace_info.start_time) * 1000),
                  status := st }) := by
  unfold end_trace
  rw [h]
  exact find?_map_ite (fun tr => tr.trace_id == tid)
    (fun tr => { tr with end_time := some now,
                         duration_ms := some ((now - trace_info.start_time) * 1000),
                         status := st })
    (fun _ => rfl) s.traces

/-- `end_trace` leaves every trace row whose id differs from the ended id
unchanged in place: the UPDATE's `WHERE trace_id = %s` matches no other row. -/
theorem end_trace_get?_other (s : TracerState) (tid2 st2 : String) (t1 : Rat)
    (i : Nat) (tr2 : TraceRec) (hget : s.traces.get? i = some tr2)
    (hne : tr2.trace_id ≠ tid2) :
    ((end_trace s tid2 st2 t1).1).traces.get? i = some tr2 := by
  unfold end_trace
  cases h : lookupActive s.active_traces tid2 with
  | none => exact hget
  | some trace_info =>
    show (s.traces.map (fun tr =>
        if tr.trace_id == tid2 then
          { tr with end_time := some t1,
                    duration_ms := some ((t1 - trace_info.start_time) * 1000),
                    status := st2 }
        else tr)).get? i = some tr2
    rw [List.get?_eq_getElem?] at hget ⊢
    rw [List.getElem?_map, hget]
    have hb : (tr2.trace_id == tid2) = false := by simpa using hne
    simp [hb]
    exact fun hcontra => absurd hcontra hne

/-- `end_trace` does not change what lookup finds for any other trace id. -/
theorem findTrace_end_trace_other (s : TracerState) (tid2 st2 : String) (t1 : Rat)
    (tid3 : String) (hne : tid3 ≠ tid2) :
    findTrace ((end_trace s tid2 st2 t1).1) tid3 = findTrace s tid3 := by
  unfold end_trace
  cases h : lookupActive s.active_traces tid2 with
  | none => rfl
  | some trace_info =>
    unfold findTrace
    show List.find? (fun tr => tr.trace_id == tid3)
        (s.traces.map (fun tr =>
          if tr.trace_id == tid2 then
            { tr with end_time := some t1,
                      duration_ms := some ((t1 - trace_info.start_time) * 1000),
                      status := st2 }
          else tr)) =
      List.find? (fun tr => tr.trace_id == tid3) s.traces
    rw [List.find?_map]
    have hpf : ((fun tr : TraceRec => tr.trace_id == tid3) ∘ (fun tr =>
        if tr.trace_id == tid2 then
          { tr with end_time := some t1,
                    duration_ms := some ((t1 - trace_info.start_time) * 1000),
                    status := st2 }
        else tr)) = (fun tr : TraceRec => tr.trace_id == tid3) := by
      funext tr
      by_cases hc : tr.trace_id == tid2 <;> simp [hc, Function.comp]
    rw [hpf]
    cases hf : List.find? (fun tr : TraceRec => tr.trace_id == tid3) s.traces with
    | none => rfl
    | some tr0 =>
      have h3 : tr0.trace_id = tid3 := by simpa using List.find?_some hf
      have h4 : (tr0.trace_id == tid2) = false := by
        rw [h3]
        simpa using hne
      simp [h4]
      exact fun hcontra => absurd (h3.symm.trans hcontra) hne

/-- Effect of `end_span` on the span row `find?` locates. -/
theorem findSpan_end_span (s : TracerState) (sid : String) (q : Option String)
    (r : Int) (st : String) (now : Rat) :
    findSpan (end_span s sid q r st now) sid =
      (findSpan s sid).map (fun sp =>
        { sp with end_time := some now,
                  duration_ms := some ((now - sp.start_time) * 1000),
                  db_query := q, rows_affected := some r, status := st }) := by
  unfold findSpan end_span
  exact find?_map_ite (fun sp => sp.span_id == sid)
    (fun sp => { sp with end_time := some now,
                         duration_ms := some ((now - sp.start_time) * 1000),
                         db_query := q, rows_affected := some r, status := st })
    (fun _ => rfl) s.spans

/-! Claim theorems about the Trace Recorder. -/

/-- C5: `end_trace` on a trace id absent from the open-trace table signals
`NotFound` and leaves the whole state (trace rows, span rows, open-trace table)
unchanged; and because a successful `end_trace` deletes the id, a repeated
`end_trace` on the same id is always such a no-op. -/
theorem c5_end_trace_not_found (s : TracerState) (tid st : String) (now : Rat)
    (h : lookupActive s.active_traces tid = none) :
    end_trace s tid st now = (s, .notFound) ∧
    ∀ (tid2 st1 st2 : String) (n1 n2 : Rat),
      end_trace (end_trace s tid2 st1 n1).1 tid2 st2 n2 =
        ((end_trace s tid2 st1 n1).1, .notFound) :=
  ⟨end_trace_of_lookup_none st now h,
   fun tid2 st1 st2 n1 n2 => end_trace_twice s tid2 st1 st2 n1 n2⟩

/-- C5 witness at the empty state. -/
theorem c5_end_trace_not_found_witness :
    lookupActive emptyState.active_traces "t1" = none ∧
    end_trace emptyState "t1" "success" 1 = (emptyState, .notFound) ∧
    end_trace (end_trace emptyState "t1" "success" 1).1 "t1" "error" 2 =
      ((end_trace emptyState "t1" "success" 1).1, .notFound) := by
  have h := c5_end_trace_not_found emptyState "t1" "success" 1 rfl
  exact ⟨rfl, h.1, h.2 "t1" "success" "error" 1 2⟩

/-- C7: `end_trace` on an open trace id computes the duration as
`(now - recorded start instant) * 1000`, writes end timestamp, duration and the
given status to the trace row, and deletes the id from the open-trace table;
when the clock has not gone backwards since the start, the closed row has
`end_time >= start_time` and `duration_ms >= 0`. -/
theorem c7_end_trace_closes (s : TracerState) (tid st : String) (now : Rat)
    (trace_info : ActiveInfo) (tr : TraceRec)
    (hA : lookupActive s.active_traces tid = some trace_info)
    (hT : findTrace s tid = some tr)
    (hstart : tr.start_time = trace_info.start_time)
    (hclock : trace_info.start_time ≤ now) :
    (end_trace s tid st now).2 = .ended ∧
    findTrace ((end_trace s tid st now).1) tid =
      some { tr with end_time := some now,
                     duration_ms := some ((now - trace_info.start_time) * 1000),
                     status := st } ∧
    lookupActive ((end_trace s tid st now).1).active_traces tid = none ∧
    tr.start_time ≤ now ∧
    0 ≤ (now - trace_info.start_time) * 1000 := by
  refine ⟨?_, ?_, lookupActive_end_trace s tid st now, ?_, ?_⟩
  · unfold end_trace
    rw [hA]
  · rw [findTrace_end_trace st now hA, hT]
    rfl
  · rw [hstart]
    exact hclock
  · have h0 : (0 : Rat) ≤ now - trace_info.start_time := by
      simpa using hclock
    positivity

/-- C7 witness: closing the open trace of `openState` at second 1. -/
theorem c7_end_trace_closes_witness :
    lookupActive openState.active_traces "t1" = some egInfo ∧
    findTrace openState "t1" = some egTrace ∧
    (end_trace openState "t1" "success" 1).2 = .ended ∧
    findTrace ((end_trace openState "t1" "success" 1).1) "t1" =
      some { egTrace with end_time := some 1,
                          duration_ms := some ((1 - egInfo.start_time) * 1000),
                          status := "success" } ∧
    lookupActive ((end_trace openState "t1" "success" 1).1).active_traces "t1" = none ∧
    egTrace.start_time ≤ 1 ∧
    0 ≤ ((1 : Rat) - egInfo.start_time) * 1000 := by
  have h := c7_end_trace_closes openState "t1" "success" 1 egInfo egTrace rfl rfl rfl
    (by norm_num [egInfo])
  exact ⟨rfl, rfl, h.1, h.2.1, h.2.2.1, h.2.2.2.1, h.2.2.2.2⟩

/-- C9: `end_span` on a span id no row carries matches nothing: the state is
returned unchanged and no exception is raised. -/
theorem c9_end_span_unknown_noop (s : TracerState) (sid : String) (q : Option String)
    (r : Int) (st : String) (now : Rat)
    (h : ∀ sp ∈ s.spans, sp.span_id ≠ sid) :
    end_span s sid q r st now = s := by
  unfold end_span
  have : s.spans.map (fun sp =>
      if sp.span_id == sid then
        { sp with end_time := some now,
                  duration_ms := some ((now - sp.start_time) * 1000),
                  db_query := q, rows_affected := some r, status := st }
      else sp) = s.spans.map id := List.map_congr_left (fun sp hsp => by simp [h sp hsp])
  rw [this, List.map_id]

/-- C9 witness: ending a never-created span id in a state with two spans. -/
theorem c9_end_span_unknown_noop_witness :
    (∀ sp ∈ tracedState.spans, sp.span_id ≠ "zzz") ∧
    end_span tracedState "zzz" none 0 "success" 3 = tracedState :=
  ⟨by decide, c9_end_span_unknown_noop tracedState "zzz" none 0 "success" 3 (by decide)⟩

/-- C10: `end_span` is not single-shot: a second call on an already-ended span
id succeeds and overwrites end timestamp, duration (recomputed from the stored
start timestamp to the new now), descriptor, affected count and status with the
second call's values. -/
theorem c10_end_span_overwrite (s : TracerState) (sid : String) (sp : SpanRec)
    (q1 q2 : Option String) (r1 r2 : Int) (st1 st2 : String) (n1 n2 : Rat)
    (h : findSpan s sid = some sp) :
    findSpan (end_span (end_span s sid q1 r1 st1 n1) sid q2 r2 st2 n2) sid =
      some { sp with end_time := some n2,
                     duration_ms := some ((n2 - sp.start_time) * 1000),
                     db_query := q2, rows_affected := some r2, status := st2 } := by
  rw [findSpan_end_span, findSpan_end_span, h]
  rfl

/-- C10 witness: ending span `spA` twice overwrites it with the second call's
values, the duration measured from the stored start. -/
theorem c10_end_span_overwrite_witness :
    findSpan tracedState "spA" = some egSpanA ∧
    findSpan (end_span (end_span tracedState "spA" (some "q1") 1 "success" 3)
        "spA" (some "q2") 7 "error" 4) "spA" =
      some { egSpanA with end_time := some 4,
                          duration_ms := some ((4 - egSpanA.start_time) * 1000),
                          db_query := some "q2", rows_affected := some 7,
                          status := "error" } :=
  ⟨rfl, c10_end_span_overwrite tracedState "spA" egSpanA (some "q1") (some "q2")
      1 7 "success" "error" 3 4 rfl⟩

/-- C8: a trace row is created by `start_trace` with NULL `end_time` and
`duration_ms`; `start_trace` leaves every existing trace row unchanged;
`create_span` and `end_span` never touch the traces table;
`end_trace` never changes a trace row's identity, service, operation or start
timestamp, and it leaves every trace row with a different trace id entirely
unchanged — both in place in the table and under lookup (the UPDATE's
`WHERE trace_id = %s`); and once a trace id has been ended a repeated
`end_trace` is a logged no-op.  Together: the two fields are NULL from
creation until the id's own close and are written by at most one successful
`end_trace` call, the one on that id. -/
theorem c8_trace_record_lifecycle (s : TracerState) (tid sv op : String) (t0 : Rat)
    (hfresh : findTrace s tid = none) :
    findTrace (start_trace s tid sv op t0) tid =
      some { trace_id := tid, service_name := sv, operation_name := op,
             start_time := t0, end_time := none, duration_ms := none,
             status := "in_progress" } ∧
    (∀ (tid2 : String) (tr2 : TraceRec), findTrace s tid2 = some tr2 →
      findTrace (start_trace s tid sv op t0) tid2 = some tr2) ∧
    (∀ (sid tid2 sv2 op2 : String) (par : Option String) (t1 : Rat),
      (create_span s sid tid2 sv2 op2 par t1).traces = s.traces) ∧
    (∀ (sid : String) (q : Option String) (r : Int) (st2 : String) (t1 : Rat),
      (end_span s sid q r st2 t1).traces = s.traces) ∧
    (∀ (tid2 st2 : String) (t1 : Rat),
      ((end_trace s tid2 st2 t1).1).traces.map
          (fun tr => (tr.trace_id, tr.service_name, tr.operation_name, tr.start_time)) =
        s.traces.map
          (fun tr => (tr.trace_id, tr.service_name, tr.operation_name, tr.start_time))) ∧
    (∀ (tid2 st2 : String) (t1 : Rat) (i : Nat) (tr2 : TraceRec),
      s.traces.get? i = some tr2 → tr2.trace_id ≠ tid2 →
      ((end_trace s tid2 st2 t1).1).traces.get? i = some tr2) ∧
    (∀ (tid2 st2 : String) (t1 : Rat) (tid3 : String), tid3 ≠ tid2 →
      findTrace ((end_trace s tid2 st2 t1).1) tid3 = findTrace s tid3) ∧
    (∀ (tid2 st1 st2 : String) (n1 n2 : Rat),
      end_trace (end_trace s tid2 st1 n1).1 tid2 st2 n2 =
        ((end_trace s tid2 st1 n1).1, .notFound)) := by
  refine ⟨?_, ?_, fun _ _ _ _ _ _ => rfl, fun _ _ _ _ _ => rfl, ?_, ?_, ?_, ?_⟩
  · unfold findTrace at hfresh ⊢
    unfold start_trace
    rw [List.find?_append, hfresh]
    simp
  · intro tid2 tr2 h2
    unfold findTrace at h2 ⊢
    unfold start_trace
    rw [List.find?_append, h2]
    rfl
  · intro tid2 st2 t1
    unfold end_trace
    cases h : lookupActive s.active_traces tid2 with
    | none => rfl
    | some trace_info =>
      show (s.traces.map (fun tr =>
          if tr.trace_id == tid2 then
            { tr with end_time := some t1,
                      duration_ms := some ((t1 - trace_info.start_time) * 1000),
                      status := st2 }
          else tr)).map
            (fun tr => (tr.trace_id, tr.service_name, tr.operation_name, tr.start_time)) =
        s.traces.map (fun tr => (tr.trace_id, tr.service_name, tr.operation_name, tr.start_time))
      rw [List.map_map]
      refine List.map_congr_left (fun tr _ => ?_)
      by_cases hc : tr.trace_id == tid2 <;> simp [hc, Function.comp]
  · exact fun tid2 st2 t1 i tr2 hget hne =>
      end_trace_get?_other s tid2 st2 t1 i tr2 hget hne
  · exact fun tid2 st2 t1 tid3 hne =>
      findTrace_end_trace_other s tid2 st2 t1 tid3 hne
  · intro tid2 st1 st2 n1 n2
    exact end_trace_twice s tid2 st1 st2 n1 n2

/-- C8 witness at the empty state (the only open question is the shape of the
inserted row and the per-operation frame conditions, all at concrete calls). -/
theorem c8_trace_record_lifecycle_witness :
    findTrace twoState "t3" = none ∧
    findTrace (start_trace twoState "t3" "api" "op" 2) "t3" =
      some { trace_id := "t3", service_name := "api", operation_name := "op",
             start_time := 2, end_time := none, duration_ms := none,
             status := "in_progress" } ∧
    findTrace twoState "t1" = some egTrace ∧
    findTrace (start_trace twoState "t3" "api" "op" 2) "t1" = some egTrace ∧
    (create_span twoState "s1" "t1" "svc" "op" none 1).traces = twoState.traces ∧
    (end_span twoState "s1" none 0 "success" 2).traces = twoState.traces ∧
    ((end_trace twoState "t1" "success" 3).1).traces.map
        (fun tr => (tr.trace_id, tr.service_name, tr.operation_name, tr.start_time)) =
      twoState.traces.map
        (fun tr => (tr.trace_id, tr.service_name, tr.operation_name, tr.start_time)) ∧
    twoState.traces.get? 1 = some egTrace2 ∧
    egTrace2.trace_id ≠ "t1" ∧
    ((end_trace twoState "t1" "success" 3).1).traces.get? 1 = some egTrace2 ∧
    findTrace ((end_trace twoState "t1" "success" 3).1) "t2" = findTrace twoState "t2" ∧
    end_trace (end_trace twoState "t1" "success" 3).1 "t1" "error" 4 =
      ((end_trace twoState "t1" "success" 3).1, .notFound) := by
  have h := c8_trace_record_lifecycle twoState "t3" "api" "op" 2 rfl
  refine ⟨rfl, h.1, rfl, h.2.1 "t1" egTrace rfl, h.2.2.1 "s1" "t1" "svc" "op" none 1,
    h.2.2.2.1 "s1" none 0 "success" 2, h.2.2.2.2.1 "t1" "success" 3,
    rfl, by decide, ?_, ?_, h.2.2.2.2.2.2.2 "t1" "success" "error" 3 4⟩
  · exact h.2.2.2.2.2.1 "t1" "success" 3 1 egTrace2 rfl (by decide)
  · exact h.2.2.2.2.2.2.1 "t1" "success" 3 "t2" (by decide)

/-! Helper lemmas about the analyzer. -/

/-- The span list handed to the analyzer is a permutation of the trace's rows. -/
theorem loadSpans_perm (s : TracerState) (tid : String) :
    (loadSpans s tid).Perm (tracedSpans s tid) :=
  List.perm_insertionSort startLe (tracedSpans s tid)

/-- The span list handed to the analyzer is sorted by start timestamp. -/
theorem loadSpans_sorted (s : TracerState) (tid : String) :
    List.Sorted startLe (loadSpans s tid) :=
  List.sorted_insertionSort startLe (tracedSpans s tid)

/-- The scan of Python `max` stays inside the scanned list. -/
theorem maxByDur_mem (l : List SpanRec) : ∀ m, maxByDur m l ∈ m :: l := by
  induction l with
  | nil => intro m; simp [maxByDur]
  | cons z l ih =>
    intro m
    have h := ih (if spanDur m < spanDur z then z else m)
    rw [show maxByDur m (z :: l) = maxByDur (if spanDur m < spanDur z then z else m) l from rfl]
    rcases List.mem_cons.mp h with h1 | h2
    · rw [h1]
      by_cases hc : spanDur m < spanDur z <;> simp [hc]
    · simp [List.mem_cons, h2]

/-- The scan of Python `max` dominates every scanned duration. -/
theorem maxByDur_ge (l : List SpanRec) : ∀ m, ∀ y ∈ m :: l, spanDur y ≤ spanDur (maxByDur m l) := by
  induction l with
  | nil =>
    intro m y hy
    simp at hy
    simp [maxByDur, hy]
  | cons z l ih =>
    intro m y hy
    rw [show maxByDur m (z :: l) = maxByDur (if spanDur m < spanDur z then z else m) l from rfl]
    have hmle : spanDur m ≤ spanDur (if spanDur m < spanDur z then z else m) := by
      by_cases hc : spanDur m < spanDur z
      · simpa [hc] using le_of_lt hc
      · simp [hc]
    have hzle : spanDur z ≤ spanDur (if spanDur m < spanDur z then z else m) := by
      by_cases hc : spanDur m < spanDur z
      · simp [hc]
      · simpa [hc] using le_of_not_lt hc
    have hm' := ih (if spanDur m < spanDur z then z else m)
    rcases List.mem_cons.mp hy with rfl | hy2
    · exact le_trans hmle (hm' _ (List.mem_cons_self _ _))
    · rcases List.mem_cons.mp hy2 with rfl | hy3
      · exact le_trans hzle (hm' _ (List.mem_cons_self _ _))
      · exact hm' y (List.mem_cons_of_mem _ hy3)

/-- On a list sorted by start timestamp, the scan of Python `max` keeps the
current element on ties, so the element it returns starts no later than any
element of maximal duration. -/
theorem maxByDur_tie (l : List SpanRec) :
    ∀ m, List.Sorted startLe (m :: l) →
      ∀ y ∈ m :: l, spanDur y = spanDur (maxByDur m l) →
        (maxByDur m l).start_time ≤ y.start_time := by
  induction l with
  | nil =>
    intro m _ y hy _
    simp at hy
    simp [maxByDur, hy]
  | cons z l ih =>
    intro m hsort y hy htie
    have hmz : startLe m z := (List.sorted_cons.mp hsort).1 z (List.mem_cons_self _ _)
    have hml : ∀ b ∈ l, startLe m b := fun b hb =>
      (List.sorted_cons.mp hsort).1 b (List.mem_cons_of_mem _ hb)
    have hszl : List.Sorted startLe (z :: l) := (List.sorted_cons.mp hsort).2
    have hsl : List.Sorted startLe l := (List.sorted_cons.mp hszl).2
    by_cases hc : spanDur m < spanDur z
    · have heq : maxByDur m (z :: l) = maxByDur z l := by
        show maxByDur (if spanDur m < spanDur z then z else m) l = maxByDur z l
        rw [if_pos hc]
      rw [heq] at htie ⊢
      rcases List.mem_cons.mp hy with rfl | hy2
      · exfalso
        have h1 : spanDur z ≤ spanDur (maxByDur z l) :=
          maxByDur_ge l z z (List.mem_cons_self _ _)
        rw [← htie] at h1
        exact absurd hc (not_lt.mpr h1)
      · exact ih z hszl y hy2 htie
    · have heq : maxByDur m (z :: l) = maxByDur m l := by
        show maxByDur (if spanDur m < spanDur z then z else m) l = maxByDur m l
        rw [if_neg hc]
      rw [heq] at htie ⊢
      have hsort' : List.Sorted startLe (m :: l) := by
        rw [List.sorted_cons]
        exact ⟨hml, hsl⟩
      rcases List.mem_cons.mp hy with rfl | hy2
      · exact ih y hsort' y (List.mem_cons_self _ _) htie
      · rcases List.mem_cons.mp hy2 with rfl | hy3
        · have hzm : spanDur y ≤ spanDur m := le_of_not_lt hc
          have hmr : spanDur m ≤ spanDur (maxByDur m l) :=
            maxByDur_ge l m m (List.mem_cons_self _ _)
          have hmeq : spanDur m = spanDur (maxByDur m l) :=
            le_antisymm hmr (by rw [← htie]; exact hzm)
          have hms' : (maxByDur m l).start_time ≤ m.start_time :=
            ih m hsort' m (List.mem_cons_self _ _) hmeq
          exact le_trans hms' hmz
        · exact ih m hsort' y (List.mem_cons_of_mem _ hy3) htie

/-- A successful span-loop accumulation is the sum of the durations of exactly
the spans whose `db_query` is truthy. -/
theorem sumDbTime_ok : ∀ (l : List SpanRec) (t : Rat), sumDbTime l = .ok t →
    t = ((l.filter (fun sp => isTruthy sp.db_query)).map spanDur).sum := by
  intro l
  induction l with
  | nil =>
    intro t h
    injection h with h2
    simp [← h2]
  | cons sp l ih =>
    intro t h
    unfold sumDbTime at h
    cases hd : sp.duration_ms with
    | none => rw [hd] at h; exact Except.noConfusion h
    | some d =>
      rw [hd] at h
      cases hs : sumDbTime l with
      | error e => rw [hs] at h; exact Except.noConfusion h
      | ok t2 =>
        rw [hs] at h
        injection h with h2
        rw [← h2, ih t2 hs]
        by_cases hq : isTruthy sp.db_query
        · simp [List.filter_cons, hq, spanDur, hd]
        · simp [List.filter_cons, hq]

/-- Everything a successful run of the analysis body pins down. -/
theorem analyzeOn_ok {tr : TraceRec} {spans : List SpanRec} {rep : TraceReport}
    (h : analyzeOn tr spans = .ok rep) :
    tr.duration_ms = some rep.duration ∧
    sumDbTime spans = .ok rep.total_db_time ∧
    rep.db_percentage =
      (if rep.duration > 0 then rep.total_db_time / rep.duration * 100 else 0) ∧
    rep.non_db_time = rep.duration - rep.total_db_time ∧
    pyMax spans = some rep.bottleneck ∧
    rep.span_count = spans.length ∧
    rep.service = tr.service_name ∧ rep.operation = tr.operation_name ∧
    rep.status = tr.status := by
  unfold analyzeOn at h
  cases hd : tr.duration_ms with
  | none => rw [hd] at h; exact Except.noConfusion h
  | some d =>
    rw [hd] at h
    cases hs : sumDbTime spans with
    | error e => rw [hs] at h; exact Except.noConfusion h
    | ok t =>
      rw [hs] at h
      cases hm : pyMax spans with
      | none => rw [hm] at h; exact Except.noConfusion h
      | some b =>
        rw [hm] at h
        injection h with h2
        subst h2
        exact ⟨rfl, rfl, rfl, rfl, rfl, rfl, rfl, rfl, rfl⟩

/-- A successful `analyze_trace` found the trace row and ran the analysis body
on the loaded spans. -/
theorem analyze_trace_ok {s : TracerState} {tid : String} {rep : TraceReport}
    (h : analyze_trace s tid = .ok rep) :
    ∃ tr, findTrace s tid = some tr ∧ analyzeOn tr (loadSpans s tid) = .ok rep := by
  unfold analyze_trace at h
  cases hT : findTrace s tid with
  | none => rw [hT] at h; exact Except.noConfusion h
  | some tr => rw [hT] at h; exact ⟨tr, rfl, h⟩

/-! Claim theorems about the Trace Analyzer. -/

/-- C1: the claim says analyzing a trace whose `duration_ms` is NULL (still
`in_progress`) completes, reporting zero/undefined.  The code instead crashes:
`print(f"Total Duration: {duration:.2f}ms")` formats `None` and raises
`TypeError` (and `duration > 0` would raise as well).  This theorem evaluates
the embedding at such a state: the trace row exists with NULL duration and the
analysis stops with the null-format error instead of producing a report. -/
theorem c1_analyze_in_progress_crashes :
    findTrace openState "t1" = some egTrace ∧
    egTrace.duration_ms = none ∧
    egTrace.status = "in_progress" ∧
    analyze_trace openState "t1" = .error .typeErrorNullTraceDuration :=
  ⟨rfl, rfl, rfl, rfl⟩

/-- C2 counterexample: the claim asserts analysis of a zero-span trace never
takes the maximum of an empty sequence.  On a trace row with zero spans the
run terminates precisely in the `ValueError` raised by
`max(spans, key=...)` on the empty span list — the empty collection is
dereferenced, and that dereference is the failure. -/
theorem c2_counterexample :
    tracedSpans closedEmptyState "t1" = [] ∧
    (findTrace closedEmptyState "t1").map (fun tr => tr.duration_ms) =
      some (some 5000) ∧
    analyze_trace closedEmptyState "t1" = .error .valueErrorEmptyMax :=
  ⟨rfl, rfl, rfl⟩

/-- C2 (amended): for every trace record that exists, has a non-NULL duration
and owns zero spans, `analyze_trace` fails, and the failure is the `ValueError`
raised by taking `max` of the empty span list (there is no guard before the
dereference). -/
theorem c2_analyze_empty_spans (s : TracerState) (tid : String) (tr : TraceRec) (d : Rat)
    (hT : findTrace s tid = some tr) (hd : tr.duration_ms = some d)
    (hs : tracedSpans s tid = []) :
    analyze_trace s tid = .error .valueErrorEmptyMax := by
  have hl : loadSpans s tid = [] := by
    unfold loadSpans
    rw [hs]
    rfl
  unfold analyze_trace
  rw [hT, hl]
  show analyzeOn tr [] = .error .valueErrorEmptyMax
  unfold analyzeOn
  rw [hd]
  rfl

/-- C2 witness: the zero-span ended trace of `closedEmptyState`. -/
theorem c2_analyze_empty_spans_witness :
    findTrace closedEmptyState "t1" = some doneTrace ∧
    doneTrace.duration_ms = some 5000 ∧
    tracedSpans closedEmptyState "t1" = [] ∧
    analyze_trace closedEmptyState "t1" = .error .valueErrorEmptyMax :=
  ⟨rfl, rfl, rfl,
   c2_analyze_empty_spans closedEmptyState "t1" doneTrace 5000 rfl rfl rfl⟩

/-- C4: whenever `analyze_trace` reports, its bottleneck is one of the trace's
spans, its duration dominates every span of that trace, and any span tying the
maximal duration starts no earlier than the reported bottleneck — the first
span of the start-time-ascending load order wins the tie. -/
theorem c4_bottleneck (s : TracerState) (tid : String) (rep : TraceReport)
    (h : analyze_trace s tid = .ok rep) :
    rep.bottleneck ∈ tracedSpans s tid ∧
    (∀ sp ∈ tracedSpans s tid, spanDur sp ≤ spanDur rep.bottleneck) ∧
    (∀ sp ∈ tracedSpans s tid, spanDur sp = spanDur rep.bottleneck →
      rep.bottleneck.start_time ≤ sp.start_time) := by
  obtain ⟨tr, hT, hA⟩ := analyze_trace_ok h
  have hmax := (analyzeOn_ok hA).2.2.2.2.1
  have hperm := loadSpans_perm s tid
  have hsort := loadSpans_sorted s tid
  cases hl : loadSpans s tid with
  | nil => rw [hl] at hmax; exact Option.noConfusion hmax
  | cons x xs =>
    rw [hl] at hmax hperm hsort
    have hb : rep.bottleneck = maxByDur x xs := by
      have h2 : some (maxByDur x xs) = some rep.bottleneck := hmax
      injection h2 with h3
      exact h3.symm
    refine ⟨?_, ?_, ?_⟩
    · rw [hb]
      exact hperm.subset (maxByDur_mem xs x)
    · intro sp hsp
      rw [hb]
      exact maxByDur_ge xs x sp (hperm.mem_iff.mpr hsp)
    · intro sp hsp htie
      rw [hb]
      refine maxByDur_tie xs x hsort sp (hperm.mem_iff.mpr hsp) ?_
      rw [← hb]
      exact htie

/-- C4 witness: on `tracedState` the analyzer reports `egReport`, whose
bottleneck is the 80 ms span `egSpanB`. -/
theorem c4_bottleneck_witness :
    analyze_trace tracedState "t1" = .ok egReport ∧
    egReport.bottleneck ∈ tracedSpans tracedState "t1" ∧
    spanDur egSpanA ≤ spanDur egReport.bottleneck ∧
    (spanDur egSpanB = spanDur egReport.bottleneck →
      egReport.bottleneck.start_time ≤ egSpanB.start_time) := by
  have h := c4_bottleneck tracedState "t1" egReport rfl
  exact ⟨rfl, h.1, h.2.1 egSpanA (by decide), h.2.2 egSpanB (by decide)⟩

/-- C6: in every report `analyze_trace` produces, `total_db_time` is the sum
of the durations of exactly the spans carrying a truthy (non-NULL, non-empty)
operation descriptor, and `db_percentage` is
`total_db_time / duration * 100` when the trace's stored duration is positive
and `0` otherwise, where `duration` is the trace row's `duration_ms`. -/
theorem c6_db_time_accounting (s : TracerState) (tid : String) (rep : TraceReport)
    (h : analyze_trace s tid = .ok rep) :
    rep.total_db_time =
      (((tracedSpans s tid).filter (fun sp => isTruthy sp.db_query)).map spanDur).sum ∧
    rep.db_percentage =
      (if rep.duration > 0 then rep.total_db_time / rep.duration * 100 else 0) ∧
    (findTrace s tid).map (fun tr => tr.duration_ms) = some (some rep.duration) := by
  obtain ⟨tr, hT, hA⟩ := analyze_trace_ok h
  obtain ⟨hd, hs, hpct, -, -, -, -, -, -⟩ := analyzeOn_ok hA
  refine ⟨?_, hpct, ?_⟩
  · rw [sumDbTime_ok _ _ hs]
    exact ((((loadSpans_perm s tid).filter
      (fun sp => isTruthy sp.db_query))).map spanDur).sum_eq
  · rw [hT]
    simp [hd]

/-- C6 witness: on `tracedState` both DB-attributed spans (50 ms and 80 ms)
are summed and divided by the 5000 ms trace duration. -/
theorem c6_db_time_accounting_witness :
    analyze_trace tracedState "t1" = .ok egReport ∧
    egReport.total_db_time =
      (((tracedSpans tracedState "t1").filter
        (fun sp => isTruthy sp.db_query)).map spanDur).sum ∧
    egReport.db_percentage =
      (if egReport.duration > 0 then
        egReport.total_db_time / egReport.duration * 100 else 0) ∧
    (findTrace tracedState "t1").map (fun tr => tr.duration_ms) =
      some (some egReport.duration) := by
  have h := c6_db_time_accounting tracedState "t1" egReport rfl
  exact ⟨rfl, h.1, h.2.1, h.2.2⟩

/-! Claim theorems about the Service Performance Aggregator. -/

/-- Rows with equal average duration may follow each other in either order
under `ORDER BY avg_duration DESC`. -/
theorem avgAfter_of_eq {a b : ServiceStats} (h : a.avg_duration = b.avg_duration) :
    avgAfter a b := by
  unfold avgAfter
  rw [h]
  cases b.avg_duration with
  | none => exact trivial
  | some x => exact le_refl x

/-- C3 counterexample: with services `svc-a` and `svc-b` tied at average
duration 10, the rows listed in descending name order are a possible output of
the query (it orders by average duration only), yet they violate the claimed
tie-break by ascending service name. -/
theorem c3_counterexample :
    servicePerformanceOutput tieSpans tieRowsDesc ∧
    ¬ tieRowsDesc.Pairwise claimRowOrder := by
  constructor
  · constructor
    · show List.Perm [statsFor tieSpans "svc-b", statsFor tieSpans "svc-a"]
        [statsFor tieSpans "svc-a", statsFor tieSpans "svc-b"]
      exact List.Perm.swap _ _ _
    · refine List.pairwise_cons.mpr ⟨?_, List.pairwise_singleton _ _⟩
      intro b hb
      rw [List.mem_singleton] at hb
      subst hb
      exact avgAfter_of_eq rfl
  · intro hp
    have h1 := (List.pairwise_cons.mp hp).1 (statsFor tieSpans "svc-a") (by simp)
    rcases h1 with ⟨h2, h3⟩ | ⟨h4, h5⟩
    · exact h3 (avgAfter_of_eq rfl)
    · refine absurd h5 ?_
      rw [String.lt_iff_toList_lt]
      decide

/-- C3 (amended): every row sequence the aggregation query can return has
exactly one row per distinct service name, carrying that service's span count
and its average, maximum and minimum duration, and the rows are ordered by
average duration descending; the relative order of rows with equal average
duration is unspecified (the query has no secondary sort key). -/
theorem c3_aggregate_rows (spans : List SpanRec) (rows : List ServiceStats)
    (h : servicePerformanceOutput spans rows) :
    (∀ svc ∈ spans.map (fun sp => sp.service_name),
      rows.countP (fun r => r.service_name == svc) = 1 ∧
      statsFor spans svc ∈ rows) ∧
    (∀ r ∈ rows, r = statsFor spans r.service_name) ∧
    rows.Pairwise avgAfter := by
  obtain ⟨hperm, hsort⟩ := h
  refine ⟨?_, ?_, hsort⟩
  · intro svc hsvc
    have hmem : svc ∈ (spans.map (fun sp => sp.service_name)).dedup :=
      List.mem_dedup.mpr hsvc
    constructor
    · rw [hperm.countP_eq]
      unfold serviceGroups
      rw [List.countP_map]
      show List.countP (fun n => n == svc) (spans.map (fun sp => sp.service_name)).dedup = 1
      exact List.count_eq_one_of_mem (List.nodup_dedup _) hmem
    · refine hperm.mem_iff.mpr ?_
      unfold serviceGroups
      exact List.mem_map.mpr ⟨svc, hmem, rfl⟩
  · intro r hr
    have hr2 : r ∈ serviceGroups spans := hperm.subset hr
    unfold serviceGroups at hr2
    obtain ⟨n, hn, hrn⟩ := List.mem_map.mp hr2
    rw [← hrn]
    rfl

/-- C3 witness: the two-service tie population, with the rows in the order the
group computation lists them. -/
theorem c3_aggregate_rows_witness :
    servicePerformanceOutput tieSpans (serviceGroups tieSpans) ∧
    (serviceGroups tieSpans).countP (fun r => r.service_name == "svc-a") = 1 ∧
    statsFor tieSpans "svc-a" ∈ serviceGroups tieSpans ∧
    (serviceGroups tieSpans).Pairwise avgAfter := by
  have hout : servicePerformanceOutput tieSpans (serviceGroups tieSpans) := by
    refine ⟨List.Perm.refl _, ?_⟩
    show List.Pairwise avgAfter [statsFor tieSpans "svc-a", statsFor tieSpans "svc-b"]
    refine List.pairwise_cons.mpr ⟨?_, List.pairwise_singleton _ _⟩
    intro b hb
    rw [List.mem_singleton] at hb
    subst hb
    exact avgAfter_of_eq rfl
  have h := c3_aggregate_rows tieSpans (serviceGroups tieSpans) hout
  have h1 := h.1 "svc-a" (by decide)
  exact ⟨hout, h1.1, h1.2, h.2.2⟩

end DistributedTracer
